import Mathlib

/-
Verification of the poe-api-bridge server (src/server.py) against its design
specification.  The Python code is shallowly embedded: Python strings are
modelled as `List Char` (so that every operation is structural and
kernel-computable), JSON values produced by `json.loads` are modelled by the
inductive `JVal`, and the external collaborators (the tiktoken tokenizer, the
Poe upload endpoint, `json.loads`, and the upstream bot stream) are passed in
as explicit function parameters, so every theorem quantifies over their
behaviour.  Exceptions are modelled by `Option`/`Except` results: a Python
`try`/`except` block becomes a `match` on the fallible step, returning the
state that was current at the raise site, exactly as the interpreter would.
-/

namespace PoeBridge

/-- Python strings are modelled as lists of characters so that all string
operations reduce in the kernel. -/
abbrev Str := List Char

/-- Converts a Lean string literal to the model's string type. -/
def pstr (s : String) : Str := s.data

/-- Model of Python's `s.startswith(p)`. -/
def strStarts (s p : Str) : Bool := p.isPrefixOf s

/-- Model of Python's `s.endswith(p)`. -/
def strEnds (s p : Str) : Bool := p.isSuffixOf s

/-- Helper: returns the remainder of `s` after the first occurrence of `sep`,
or `none` when `sep` does not occur in `s`. -/
def findAfter (sep : Str) : Str → Option Str
  | [] => if sep.isPrefixOf ([] : Str) then some [] else none
  | c :: rest =>
    if sep.isPrefixOf (c :: rest) then some ((c :: rest).drop sep.length)
    else findAfter sep rest

/-- Model of Python's `sep in s` substring test (for non-empty `sep`). -/
def strHas (s sep : Str) : Bool := (findAfter sep s).isSome

/-- Model of Python's `s.split(sep, 1)[1]` (callers guard with `sep in s`). -/
def splitAfterFirst (s sep : Str) : Str := (findAfter sep s).getD []

/-- Model of Python's `s.rsplit(sep, 1)[0]`: everything before the last
occurrence of `sep`, or `s` itself when `sep` does not occur. -/
def beforeLast (s sep : Str) : Str :=
  match findAfter sep.reverse s.reverse with
  | some r => r.reverse
  | none => s

/-- Model of Python's `s.strip()`. -/
def pyStrip (s : Str) : Str :=
  ((s.dropWhile Char.isWhitespace).reverse.dropWhile Char.isWhitespace).reverse

/-- Model of Python's `s.rstrip(")")`. -/
def rstripParen (s : Str) : Str :=
  (s.reverse.dropWhile (fun c => c = ')')).reverse

/-- Model of Python's `" ".join(parts)`. -/
def joinWith (sep : Str) : List Str → Str
  | [] => []
  | [x] => x
  | x :: y :: rest => x ++ sep ++ joinWith sep (y :: rest)

/-- Model of a Python value produced by `json.loads`: a JSON string, a JSON
object, or any other scalar (represented by `int`; what matters downstream is
only that Python's `in` operator raises `TypeError` on it, exactly as it does
on every non-string non-container value). -/
inductive JVal where
  | str (s : Str)
  | int (n : Int)
  | obj (fields : List (Str × JVal))

/-- Model of an arbitrary Python exception as seen by `parse_poe_error`:
its `str()` form and whether it is a `ValueError`. -/
structure PyError where
  s : Str
  isValueError : Bool

/-- Model of Python's `needle in v` on a value of unknown type: substring
test on a string, key-membership on a dict, and a `TypeError` (modelled as
`Except.error`) on any other value. -/
def pyIn (needle : Str) : JVal → Except Unit Bool
  | .str s => .ok (strHas s needle)
  | .obj fields => .ok (fields.any (fun kv => kv.1 == needle))
  | .int _ => .error ()

/-- Model of Python's `d.get(key, dflt)` on a dict. -/
def jGet (fields : List (Str × JVal)) (key : Str) (dflt : JVal) : JVal :=
  match fields.find? (fun kv => kv.1 == key) with
  | some kv => kv.2
  | none => dflt

/-- Tail of `parse_poe_error` (src/server.py lines 259-270): the `error_id`
extraction and the error-type classification.  Python's `"error_id:" in
error_message` raises `TypeError` when the message is not a string or a
container; that exception is swallowed by the outer `except Exception` handler
at line 274, which returns the state current at the raise site. -/
def parseTail (e : PyError) (error_message : JVal) (error_data : Option JVal)
    (error_type : Str) : JVal × Option JVal × Str × Option Str :=
  match pyIn (pstr "error_id:") error_message with
  | .error _ => (error_message, error_data, error_type, none)
  | .ok found =>
    let error_id : Option Str :=
      if found then
        match error_message with
        | .str m => some (rstripParen (pyStrip (splitAfterFirst m (pstr "error_id:"))))
        | _ => none
      else none
    if e.isValueError && strHas e.s (pstr "Model") then
      (error_message, error_data, pstr "model_not_found", error_id)
    else
      match pyIn (pstr "Internal server error") error_message with
      | .error _ => (error_message, error_data, error_type, error_id)
      | .ok true => (error_message, error_data, pstr "poe_server_error", error_id)
      | .ok false => (error_message, error_data, error_type, error_id)

/-- Error normalizer, translated from `parse_poe_error` (src/server.py lines
225-278).  `jloads` models `json.loads`, returning `none` on a
`JSONDecodeError`.  Returns `(error_message, error_data, error_type,
error_id)`.  Each `except` path returns the variables' values at the raise
site: a decode failure in case 1 aborts before any assignment; a non-dict
parse result makes `.get` raise `AttributeError` after `error_data` was
assigned (outer handler, case 1) or escapes the inner handler which only
catches `JSONDecodeError` (case 2). -/
def parse_poe_error (jloads : Str → Option JVal) (e : PyError) :
    JVal × Option JVal × Str × Option Str :=
  let error_str := e.s
  if strStarts error_str (pstr "\x7b") && strEnds error_str (pstr "\x7d") then
    match jloads error_str with
    | none => (.str e.s, none, pstr "server_error", none)
    | some d =>
      match d with
      | .obj fields =>
          parseTail e (jGet fields (pstr "text") (.str error_str)) (some d)
            (pstr "poe_api_error")
      | _ => (.str e.s, some d, pstr "server_error", none)
  else if strHas error_str (pstr "BotError('") && strHas error_str (pstr "')") then
    let json_part := beforeLast (splitAfterFirst error_str (pstr "BotError('")) (pstr "')")
    match jloads json_part with
    | none => parseTail e (.str e.s) none (pstr "server_error")
    | some d =>
      match d with
      | .obj fields =>
          parseTail e (jGet fields (pstr "text") (.str error_str)) (some d)
            (pstr "poe_api_error")
      | _ => (.str e.s, some d, pstr "server_error", none)
  else
    parseTail e (.str e.s) none (pstr "server_error")

/-- Usage counters as emitted in responses (the dict built by
`count_message_tokens`, src/server.py lines 422-426). -/
structure Usage where
  prompt_tokens : Nat
  completion_tokens : Nat
  total_tokens : Nat
deriving DecidableEq

/-- Upstream protocol message (`fp.ProtocolMessage`), restricted to the
fields the token counter reads. -/
structure ProtocolMessage where
  role : Str
  content : Str

/-- Token accounting over a message list, translated from
`count_message_tokens` (src/server.py lines 399-426).  `ct` models
`count_tokens` (the tiktoken call with its `len(text) // 4` fallback), an
arbitrary total function of the text. -/
def count_message_tokens (ct : Str → Nat) (messages : List ProtocolMessage) : Usage :=
  let pc : Nat × Nat := messages.foldl
    (fun acc msg =>
      let token_count := ct msg.content
      if msg.role == pstr "bot" || msg.role == pstr "assistant" then
        (acc.1, acc.2 + token_count)
      else
        (acc.1 + token_count, acc.2))
    (0, 0)
  { prompt_tokens := pc.1 + 3
    completion_tokens := pc.2
    total_tokens := pc.1 + 3 + pc.2 }

/-- Role mapping of the request normalizer, translated from `normalize_role`
(src/server.py lines 214-222). -/
def normalize_role (role : Str) : Str :=
  if role = pstr "user" then pstr "user"
  else if role = pstr "assistant" then pstr "bot"
  else if role = pstr "system" then pstr "system"
  else role

/-- Poe file attachment (`fp.Attachment`), restricted to the fields the
bridge reads. -/
structure Attachment where
  name : Str
  url : Str
deriving DecidableEq

/-- One event of the upstream bot stream (`fp.PartialResponse` as consumed by
the streaming adapter): a text delta, the replace flag (read via `getattr`
with default `False`), and an optional attachment. -/
structure BotMessage where
  text : Str
  is_replace_response : Bool
  attachment : Option Attachment
deriving DecidableEq

/-- The three render dialects selected by the `format_type` argument. -/
inductive FormatType where
  | completion
  | chat
  | poe
deriving DecidableEq

/-- Wire chunk object as built by `create_stream_chunk` and
`create_final_chunk` (src/server.py lines 681-772).  The random chunk id and
the creation timestamp are nondeterministic per call and are not modelled;
`chatChunk`'s first two fields are the optional `delta.role` and
`delta.content` keys, and the final fields of each form are the optional
`finish_reason` and `usage`. -/
inductive StreamChunk where
  | completionChunk (text : Str) (finish_reason : Option Str) (usage : Option Usage)
  | chatChunk (deltaRole : Option Str) (deltaContent : Option Str)
      (finish_reason : Option Str) (usage : Option Usage)
  | poeChunk (response : Str) (done : Bool) (is_replace : Option Bool)
      (usage : Option Usage)
deriving DecidableEq

/-- Per-event chunk construction, translated from `create_stream_chunk`
(src/server.py lines 681-732). -/
def create_stream_chunk (message_text : Str) (format_type : FormatType)
    (is_first_chunk : Bool) (is_replace_response : Bool) : StreamChunk :=
  match format_type with
  | .completion => .completionChunk message_text none none
  | .chat =>
      .chatChunk (if is_first_chunk then some (pstr "assistant") else none)
        (some message_text) none none
  | .poe => .poeChunk message_text false (some is_replace_response) none

/-- Terminal chunk construction, translated from `create_final_chunk`
(src/server.py lines 735-772).  The chat form's delta is the empty object
(no role, no content) and the poe form carries no `is_replace` key. -/
def create_final_chunk (format_type : FormatType) (token_counts : Option Usage) :
    StreamChunk :=
  match format_type with
  | .completion => .completionChunk [] (some (pstr "stop")) token_counts
  | .chat => .chatChunk none none (some (pstr "stop")) token_counts
  | .poe => .poeChunk [] true none token_counts

/-- One item of the emitted SSE sequence: a `data: <json>` chunk, a terminal
in-band error event (the dict built at src/server.py lines 842-852, with
`code` equal to the error type), or the `data: [DONE]` sentinel. -/
inductive SSEItem where
  | data (chunk : StreamChunk)
  | errorEvent (message : JVal) (etype : Str) (code : Str)
      (error_id : Option Str) (usage : Option Usage)
  | done

/-- Text rendered for one upstream event (src/server.py lines 800-803):
the delta plus, when the event carries an attachment, a newline and the
attachment's URL. -/
def renderEventText (message : BotMessage) : Str :=
  match message.attachment with
  | some a => message.text ++ pstr "\n" ++ a.url
  | none => message.text

/-- The `async for` body of `stream_response_with_replace` (src/server.py
lines 786-814) over the list of events the upstream delivers: returns the
yielded `data:` items and the final accumulated buffer.  A replace event
resets the buffer to empty before its text is appended. -/
def streamLoop (format_type : FormatType) (events : List BotMessage)
    (first_chunk : Bool) (accumulated_response : Str) : List SSEItem × Str :=
  match events with
  | [] => ([], accumulated_response)
  | message :: rest =>
    let is_replace_response := message.is_replace_response
    let accumulated_response :=
      if is_replace_response then [] else accumulated_response
    let message_text := renderEventText message
    let chunk :=
      create_stream_chunk message_text format_type first_chunk is_replace_response
    let tail := streamLoop format_type rest false (accumulated_response ++ message_text)
    (.data chunk :: tail.1, tail.2)

/-- Streaming adapter, translated from `stream_response_with_replace`
(src/server.py lines 775-856).  The upstream stream is modelled as the list
of events it delivers followed by either normal exhaustion (`streamError =
none`) or a raised exception (`some e`); each yielded chunk precedes the next
await, so an exception always interrupts after a whole number of events.  On
exhaustion the final usage is recomputed from the buffer and a terminal chunk
is emitted, then the `[DONE]` sentinel for the completion and chat dialects;
on error the normalized error event is emitted, carrying usage-so-far only
when some text had accumulated, then the sentinel likewise. -/
def stream_response_with_replace (jloads : Str → Option JVal) (ct : Str → Nat)
    (messages : List ProtocolMessage) (format_type : FormatType)
    (events : List BotMessage) (streamError : Option PyError) : List SSEItem :=
  let token_counts := count_message_tokens ct messages
  let result := streamLoop format_type events true []
  let items := result.1
  let accumulated_response := result.2
  let sentinel : List SSEItem :=
    if format_type = .completion ∨ format_type = .chat then [.done] else []
  match streamError with
  | none =>
    let completion_tokens := ct accumulated_response
    let tc : Usage :=
      { token_counts with
        completion_tokens := completion_tokens
        total_tokens := token_counts.prompt_tokens + completion_tokens }
    items ++ [.data (create_final_chunk format_type (some tc))] ++ sentinel
  | some e =>
    let r := parse_poe_error jloads e
    let tc : Usage :=
      if accumulated_response ≠ [] then
        { token_counts with
          completion_tokens := ct accumulated_response
          total_tokens := token_counts.prompt_tokens + ct accumulated_response }
      else token_counts
    let usageOpt := if accumulated_response ≠ [] then some tc else none
    items ++ [.errorEvent r.1 r.2.2.1 r.2.2.1 r.2.2.2 usageOpt] ++ sentinel

/-- The accumulation loop of the non-streaming variant
`generate_poe_bot_response_with_files` (src/server.py lines 1250-1268):
text deltas are accumulated (reset on replace), attachments are collected
separately and survive a replace. -/
def generateLoop (events : List BotMessage) (accumulated_text : Str)
    (received_files : List Attachment) : Str × List Attachment :=
  match events with
  | [] => (accumulated_text, received_files)
  | message :: rest =>
    let accumulated_text :=
      if message.is_replace_response then [] else accumulated_text
    let accumulated_text := accumulated_text ++ message.text
    let received_files :=
      received_files ++ (match message.attachment with
        | some a => [a]
        | none => [])
    generateLoop rest accumulated_text received_files

/-- Final `content` of the non-streaming accumulation variant (src/server.py
lines 1240-1287, success path): the accumulated buffer followed by one
newline-wrapped URL per received attachment. -/
def generate_poe_bot_response_with_files (events : List BotMessage) : Str :=
  let r := generateLoop events [] []
  r.1 ++ (r.2.map (fun a => pstr "\n" ++ a.url ++ pstr "\n")).flatten

/-- Usage object carried by a chunk, if any. -/
def usageOfChunk : StreamChunk → Option Usage
  | .completionChunk _ _ u => u
  | .chatChunk _ _ _ u => u
  | .poeChunk _ _ _ u => u

/-- Usage object carried by an SSE item, if any. -/
def usageOfItem : SSEItem → Option Usage
  | .data chunk => usageOfChunk chunk
  | .errorEvent _ _ _ _ u => u
  | .done => none

/-- Recognizes a non-terminal chat-dialect content chunk: a `data:` chunk
with no `finish_reason` and no `usage`. -/
def isContentChatChunk : SSEItem → Bool
  | .data (.chatChunk _ _ none none) => true
  | _ => false

/-- One element of an OpenAI multimodal `content` array as inspected by
`convert_openai_content_to_poe`: a text part, an `image_url` part (whose
nested `image_url.url` string is extracted), the legacy `image` part (URL
directly in `image_url`), or any other element, which is skipped. -/
inductive ContentPart where
  | textPart (text : Str)
  | imageUrlPart (url : Str)
  | imagePart (image_url : Str)
  | otherPart
deriving DecidableEq

/-- The `for comp in content` loop of `convert_openai_content_to_poe`
(src/server.py lines 329-382).  `upload` models the composite of
`process_base64_image` / `process_image_url` (both wrap every failure in a
`ValueError`, which the loop catches): `none` means the upload raised.  On a
failed `image_url` upload the loop appends the literal placeholder
`[Image (upload failed): <url>]` and continues; on a failed legacy `image`
upload it appends `[Image: <url>]`. -/
def convertLoop (upload : Str → Option Attachment) (content : List ContentPart)
    (text_parts : List Str) (attachments : List Attachment) :
    List Str × List Attachment :=
  match content with
  | [] => (text_parts, attachments)
  | comp :: rest =>
    match comp with
    | .textPart t => convertLoop upload rest (text_parts ++ [t]) attachments
    | .imageUrlPart url =>
      if url = [] then convertLoop upload rest text_parts attachments
      else
        match upload url with
        | some attachment =>
          let tag :=
            if strStarts url (pstr "data:") then
              pstr "[Uploaded Image: " ++ attachment.name ++ pstr "]"
            else
              pstr "[Image from URL: " ++ attachment.name ++ pstr "]"
          convertLoop upload rest (text_parts ++ [tag]) (attachments ++ [attachment])
        | none =>
          convertLoop upload rest
            (text_parts ++ [pstr "[Image (upload failed): " ++ url ++ pstr "]"])
            attachments
    | .imagePart image_url =>
      if image_url = [] then convertLoop upload rest text_parts attachments
      else
        match upload image_url with
        | some attachment =>
          let tag :=
            if strStarts image_url (pstr "data:") then
              pstr "[Uploaded Image: " ++ attachment.name ++ pstr "]"
            else
              pstr "[Image from URL: " ++ attachment.name ++ pstr "]"
          convertLoop upload rest (text_parts ++ [tag]) (attachments ++ [attachment])
        | none =>
          convertLoop upload rest
            (text_parts ++ [pstr "[Image: " ++ image_url ++ pstr "]"])
            attachments
    | .otherPart => convertLoop upload rest text_parts attachments

/-- Request-normalizer content conversion, translated from
`convert_openai_content_to_poe` (src/server.py lines 329-382): runs the loop
and joins the collected text parts with single spaces. -/
def convert_openai_content_to_poe (upload : Str → Option Attachment)
    (content : List ContentPart) : Str × List Attachment :=
  let r := convertLoop upload content [] []
  (joinWith (pstr " ") r.1, r.2)

/-- The kinds of exception that can reach the `except` block of
`chat_completions` (src/server.py lines 554-612), in the order the handler
tests them: a FastAPI `HTTPException` (re-raised as is), a `PoeAPIError`
(carrying message, optional structured data, status and optional id), a
`ValueError`, and everything else (handed to `parse_poe_error`). -/
inductive ChatExn where
  | httpExc (status : Nat)
  | poeApi (message : Str) (error_data : Option JVal) (status : Nat)
      (error_id : Option Str)
  | valueErrorExn (v : PyError)
  | otherExn (v : PyError)

/-- Error response body raised by the chat-completions error path: HTTP
status, the `error.type` field, the `error.message` field, and the optional
`error.error_id` / `error.poe_error` fields. -/
structure ErrResp where
  status : Nat
  etype : Str
  message : JVal
  error_id : Option Str
  poe_error : Option JVal

/-- Outcome of the chat-completions `except` block: an `HTTPException`
re-raised unchanged, or a freshly built error response. -/
inductive HandlerResult where
  | passthrough (status : Nat)
  | errorResponse (r : ErrResp)

/-- HTTP status of a handler outcome. -/
def handlerStatus : HandlerResult → Nat
  | .passthrough s => s
  | .errorResponse r => r.status

/-- Error dispatch of `chat_completions`, translated from the `except` block
at src/server.py lines 554-612.  A `PoeAPIError` keeps its own status code
(500 unless set) with type `poe_api_error`, and its `error_id` reaches the
body only when structured `error_data` is present; a `ValueError` whose text
contains "Model" yields 404, any other `ValueError` 400, both with type
`invalid_request_error`; every other exception is normalized by
`parse_poe_error` and raised with the default status 500. -/
def chat_completions_error (jloads : Str → Option JVal) (e : ChatExn) :
    HandlerResult :=
  match e with
  | .httpExc s => .passthrough s
  | .poeApi message error_data status error_id =>
    match error_data with
    | some d =>
      .errorResponse
        ⟨status, pstr "poe_api_error", .str message, error_id, some d⟩
    | none =>
      .errorResponse ⟨status, pstr "poe_api_error", .str message, none, none⟩
  | .valueErrorExn v =>
    if strHas v.s (pstr "Model") then
      .errorResponse ⟨404, pstr "invalid_request_error", .str v.s, none, none⟩
    else
      .errorResponse ⟨400, pstr "invalid_request_error", .str v.s, none, none⟩
  | .otherExn v =>
    let r := parse_poe_error jloads v
    match r.2.1 with
    | some d => .errorResponse ⟨500, r.2.2.1, r.1, r.2.2.2, some d⟩
    | none => .errorResponse ⟨500, r.2.2.1, r.1, none, none⟩

/-- Status-to-type table of `create_error_response` (src/server.py lines
132-139), with the dict-lookup default `server_error`. -/
def error_types_table (status_code : Nat) : Str :=
  if status_code = 400 then pstr "invalid_request_error"
  else if status_code = 401 then pstr "authentication_error"
  else if status_code = 403 then pstr "permission_error"
  else if status_code = 404 then pstr "not_found_error"
  else if status_code = 429 then pstr "rate_limit_error"
  else if status_code = 500 then pstr "server_error"
  else pstr "server_error"

/-- Result of `create_error_response`: the status and the `error` dict's
`message` and `type` fields (the optional `param` field is orthogonal to the
claims and not modelled). -/
structure SimpleError where
  status_code : Nat
  message : Str
  etype : Str
deriving DecidableEq

/-- Translated from `create_error_response` (src/server.py lines 129-146):
the type defaults through the status table only when the caller passes a
falsy (empty) `error_type`. -/
def create_error_response (message : Str) (error_type : Str)
    (status_code : Nat) : SimpleError :=
  ⟨status_code, message,
    if error_type = [] then error_types_table status_code else error_type⟩

/-- Modelled from the spec: the kind-to-status mapping as section 4.6 states
it (`invalid_request_error→400, authentication_error→401,
permission_error→403, not_found_error/model_not_found→404,
rate_limit_error→429, everything else→500`), written down only to be compared
against the code's actual dispatch. -/
def spec_status_of_kind (kind : Str) : Nat :=
  if kind = pstr "invalid_request_error" then 400
  else if kind = pstr "authentication_error" then 401
  else if kind = pstr "permission_error" then 403
  else if kind = pstr "not_found_error" ∨ kind = pstr "model_not_found" then 404
  else if kind = pstr "rate_limit_error" then 429
  else 500

/-- Net outcome of one iteration of the image-generation loop
(src/server.py lines 1105-1124): the iteration raised (in
`get_first_file_from_bot` or in the `b64_json` re-fetch; both are caught by
the per-iteration handler and skipped), returned no file, or contributed one
entry to `data`. -/
inductive Attempt where
  | raisesExn
  | noFile
  | okFile (url : Str)
deriving DecidableEq

/-- The `for i in range(num_images)` loop of `image_generations`
(src/server.py lines 1102-1124): folds the attempt outcomes into the `data`
list and the `successful_generations` counter. -/
def imageGenLoop (attempts : List Attempt) (data : List Str) (k : Nat) :
    List Str × Nat :=
  match attempts with
  | [] => (data, k)
  | .okFile u :: rest => imageGenLoop rest (data ++ [u]) (k + 1)
  | .noFile :: rest => imageGenLoop rest data k
  | .raisesExn :: rest => imageGenLoop rest data k

/-- Number of `.okFile` outcomes in an attempt list. -/
def countOk (attempts : List Attempt) : Nat :=
  attempts.countP (fun a => match a with | .okFile _ => true | _ => false)

/-- Attempt-count clamp of `image_generations` (src/server.py line 1097):
`max(1, min(request.n or 1, 10))`, where Python's `or` replaces both `None`
and the falsy `0` by the default 1. -/
def num_images_generations (n : Option Int) : Int :=
  max 1 (min (match n with
    | none => 1
    | some v => if v = 0 then 1 else v) 10)

/-- Attempt-count clamp of `image_edits` (src/server.py line 1163), textually
identical to the one in `image_generations`. -/
def num_images_edits (n : Option Int) : Int :=
  max 1 (min (match n with
    | none => 1
    | some v => if v = 0 then 1 else v) 10)

/-- Client-visible outcome of `image_generations`: HTTP 200 with the `data`
array, or the HTTP 500 no-file error body (src/server.py lines 1126-1145). -/
inductive ImageGenResult where
  | ok (data : List Str)
  | err500
deriving DecidableEq

/-- Image-generation endpoint, translated from `image_generations`
(src/server.py lines 1092-1145): performs `num_images` sequential attempts
(`attemptAt i` models the outcome of attempt `i`) and returns HTTP 200 with
the collected `data` when at least one succeeded, else the HTTP 500 error. -/
def image_generations (n : Option Int) (attemptAt : Nat → Attempt) :
    ImageGenResult :=
  let num := (num_images_generations n).toNat
  let attempts := (List.range num).map attemptAt
  let r := imageGenLoop attempts [] 0
  if r.2 > 0 then .ok r.1 else .err500

/-- Text parts collected by a run of the conversion loop from empty
accumulators. -/
def textsOf (upload : Str → Option Attachment) (content : List ContentPart) :
    List Str :=
  (convertLoop upload content [] []).1

/-- Attachments collected by a run of the conversion loop from empty
accumulators. -/
def attsOf (upload : Str → Option Attachment) (content : List ContentPart) :
    List Attachment :=
  (convertLoop upload content [] []).2

/-- Concrete model of `json.loads` as it behaves on the section-8 example
fault string, the JSON object with text "no access" and error_id "abc123"
(brace characters written \x7b/\x7d): parsing yields the two-field object
with both values strings. -/
def jlC5 : Str → Option JVal := fun s =>
  if s = pstr "\x7b\"text\": \"no access\", \"error_id\": \"abc123\"\x7d" then
    some (.obj [(pstr "text", .str (pstr "no access")),
                (pstr "error_id", .str (pstr "abc123"))])
  else none

/-- The section-8 example fault: an exception whose string form is the JSON
object with text "no access" and error_id "abc123", and which is not a
`ValueError`. -/
def errC5 : PyError :=
  ⟨pstr "\x7b\"text\": \"no access\", \"error_id\": \"abc123\"\x7d", false⟩

/-- Concrete model of `json.loads` on the fault string whose `text` field is
the JSON number 5: parsing yields an object whose "text" value is not a
string. -/
def jlC7 : Str → Option JVal := fun s =>
  if s = pstr "\x7b\"text\": 5\x7d" then
    some (.obj [(pstr "text", .int 5)])
  else none

/-- A fault whose string form is a JSON object carrying a non-string `text`
field. -/
def errC7 : PyError := ⟨pstr "\x7b\"text\": 5\x7d", false⟩

/-- Concrete attempt oracle for the section-8 image-generation example:
five sequential attempts of which the second and the fourth raise and the
other three return a file. -/
def attemptC9 : Nat → Attempt := fun i =>
  if i = 1 ∨ i = 3 then .raisesExn else .okFile (pstr "u")

end PoeBridge

namespace PoeBridge

/-- C8: the request normalizer's role mapping is a pure total function sending
"user" to "user", "assistant" to "bot", "system" to "system", and any other
role string to itself unchanged. -/
theorem claim_C8_normalize_role :
    normalize_role (pstr "user") = pstr "user" ∧
    normalize_role (pstr "assistant") = pstr "bot" ∧
    normalize_role (pstr "system") = pstr "system" ∧
    ∀ r : Str, r ≠ pstr "user" → r ≠ pstr "assistant" → r ≠ pstr "system" →
      normalize_role r = r := by
  refine ⟨rfl, rfl, rfl, ?_⟩
  intro r h1 h2 h3
  simp [normalize_role, h1, h2, h3]

/-- Witness for C8: evaluates the role mapping at the unrecognized role
"moderator", which passes through unchanged. -/
theorem claim_C8_normalize_role_witness :
    normalize_role (pstr "moderator") = pstr "moderator" :=
  claim_C8_normalize_role.2.2.2 (pstr "moderator")
    (by decide) (by decide) (by decide)

/-- The text component accumulated by the non-streaming loop does not depend
on the attachment accumulator. -/
theorem generateLoop_text_indep :
    ∀ (events : List BotMessage) (acc : Str) (f1 f2 : List Attachment),
      (generateLoop events acc f1).1 = (generateLoop events acc f2).1 := by
  intro events
  induction events with
  | nil => intro acc f1 f2; rfl
  | cons m rest ih =>
    intro acc f1 f2
    simp only [generateLoop]
    exact ih _ _ _

/-- C1: a stream event with `is_replace = true` resets the accumulated buffer
to empty before its delta is appended, in both the streaming adapter and the
non-streaming accumulation variant: the final buffer after a replace event is
independent of everything accumulated before it, and the spec's two example
traces produce "Hi there" and "Bye" respectively. -/
theorem claim_C1_replace_resets_buffer :
    (∀ (format_type : FormatType) (first : Bool) (acc acc2 : Str)
       (e : BotMessage) (rest : List BotMessage), e.is_replace_response = true →
       (streamLoop format_type (e :: rest) first acc).2
         = (streamLoop format_type (e :: rest) first acc2).2) ∧
    (∀ (acc acc2 : Str) (f1 f2 : List Attachment)
       (e : BotMessage) (rest : List BotMessage), e.is_replace_response = true →
       (generateLoop (e :: rest) acc f1).1 = (generateLoop (e :: rest) acc2 f2).1) ∧
    (streamLoop .chat [⟨pstr "Hi", false, none⟩, ⟨pstr " there", false, none⟩]
       true []).2 = pstr "Hi there" ∧
    (streamLoop .chat [⟨pstr "Hi", false, none⟩, ⟨pstr "Bye", true, none⟩]
       true []).2 = pstr "Bye" ∧
    generate_poe_bot_response_with_files
      [⟨pstr "Hi", false, none⟩, ⟨pstr " there", false, none⟩] = pstr "Hi there" ∧
    generate_poe_bot_response_with_files
      [⟨pstr "Hi", false, none⟩, ⟨pstr "Bye", true, none⟩] = pstr "Bye" := by
  refine ⟨?_, ?_, by decide, by decide, by decide, by decide⟩
  · intro format_type first acc acc2 e rest h
    simp only [streamLoop, h, if_true]
  · intro acc acc2 f1 f2 e rest h
    simp only [generateLoop, h, if_true]
    exact generateLoop_text_indep _ _ _ _

/-- Witness for C1: a replace event "Bye" arriving after a buffer "Hi"
produces the same final buffer as if nothing had been accumulated. -/
theorem claim_C1_replace_resets_buffer_witness :
    (streamLoop .chat [⟨pstr "Bye", true, none⟩] false (pstr "Hi")).2
      = (streamLoop .chat [⟨pstr "Bye", true, none⟩] false []).2 ∧
    (generateLoop [⟨pstr "Bye", true, none⟩] (pstr "Hi") []).1
      = (generateLoop [⟨pstr "Bye", true, none⟩] [] []).1 :=
  ⟨claim_C1_replace_resets_buffer.1 .chat false (pstr "Hi") [] _ [] rfl,
   claim_C1_replace_resets_buffer.2.1 (pstr "Hi") [] [] [] _ [] rfl⟩

/-- Per-event chunks never carry a usage object, whatever the dialect. -/
theorem usageOfChunk_create_stream_chunk :
    ∀ (t : Str) (fmt : FormatType) (f r : Bool),
      usageOfChunk (create_stream_chunk t fmt f r) = none := by
  intro t fmt f r
  cases fmt <;> rfl

/-- No item yielded by the per-event loop carries a usage object. -/
theorem streamLoop_no_usage :
    ∀ (fmt : FormatType) (events : List BotMessage) (first : Bool) (acc : Str)
      (item : SSEItem), item ∈ (streamLoop fmt events first acc).1 →
      usageOfItem item = none := by
  intro fmt events
  induction events with
  | nil => intro first acc item h; simp [streamLoop] at h
  | cons m rest ih =>
    intro first acc item h
    simp only [streamLoop, List.mem_cons] at h
    rcases h with h | h
    · subst h
      simp [usageOfItem, usageOfChunk_create_stream_chunk]
    · exact ih _ _ _ h

/-- C2: the usage invariant `total_tokens = prompt_tokens + completion_tokens`
holds at the initial prompt-token computation and for every usage object
carried by any emitted item — terminal usage chunk or error payload with
usage-so-far — for every tokenizer, message list, dialect, event sequence and
stream outcome. -/
theorem claim_C2_usage_invariant :
    ∀ (ct : Str → Nat) (messages : List ProtocolMessage),
      ((count_message_tokens ct messages).total_tokens
        = (count_message_tokens ct messages).prompt_tokens
          + (count_message_tokens ct messages).completion_tokens) ∧
      ∀ (jloads : Str → Option JVal) (format_type : FormatType)
        (events : List BotMessage) (streamError : Option PyError)
        (item : SSEItem) (u : Usage),
        item ∈ stream_response_with_replace jloads ct messages format_type
          events streamError →
        usageOfItem item = some u →
        u.total_tokens = u.prompt_tokens + u.completion_tokens := by
  intro ct messages
  refine ⟨rfl, ?_⟩
  intro jloads format_type events streamError item u hmem husage
  cases streamError with
  | none =>
    simp only [stream_response_with_replace, List.mem_append] at hmem
    rcases hmem with (hmem | hmem) | hmem
    · rw [streamLoop_no_usage _ _ _ _ _ hmem] at husage
      cases husage
    · rw [List.mem_singleton] at hmem
      subst hmem
      cases format_type <;>
        (simp only [usageOfItem, create_final_chunk, usageOfChunk,
           Option.some.injEq] at husage; subst husage; rfl)
    · split at hmem <;> simp at hmem
      subst hmem
      cases husage
  | some e =>
    simp only [stream_response_with_replace, List.mem_append] at hmem
    rcases hmem with (hmem | hmem) | hmem
    · rw [streamLoop_no_usage _ _ _ _ _ hmem] at husage
      cases husage
    · rw [List.mem_singleton] at hmem
      subst hmem
      simp only [usageOfItem] at husage
      split at husage
      · rw [Option.some.injEq] at husage
        subst husage
        rfl
      · cases husage
    · split at hmem <;> simp at hmem
      subst hmem
      cases husage

/-- Witness for C2: with no input messages and an empty stream in the poe
dialect, the single emitted terminal chunk carries the usage `⟨3, 0, 3⟩`
(the fixed prompt overhead, no completion), which satisfies the invariant. -/
theorem claim_C2_usage_invariant_witness :
    (Usage.mk 3 0 3).total_tokens
      = (Usage.mk 3 0 3).prompt_tokens + (Usage.mk 3 0 3).completion_tokens :=
  (claim_C2_usage_invariant (fun s => s.length / 4) []).2
    (fun _ => none) .poe [] none
    (.data (.poeChunk [] true none (some ⟨3, 0, 3⟩))) ⟨3, 0, 3⟩
    (by rw [show stream_response_with_replace (fun _ => none)
              (fun s => s.length / 4) [] .poe [] none
            = [.data (.poeChunk [] true none (some ⟨3, 0, 3⟩))] from rfl]
        exact List.mem_singleton.mpr rfl)
    rfl

/-- The per-event loop yields exactly one chunk per upstream event. -/
theorem streamLoop_length :
    ∀ (fmt : FormatType) (events : List BotMessage) (first : Bool) (acc : Str),
      (streamLoop fmt events first acc).1.length = events.length := by
  intro fmt events
  induction events with
  | nil => intro first acc; rfl
  | cons m rest ih =>
    intro first acc
    simp only [streamLoop, List.length_cons, ih]

/-- Every item yielded by the per-event loop in the chat dialect is a content
chunk: no finish reason and no usage. -/
theorem streamLoop_chat_content :
    ∀ (events : List BotMessage) (first : Bool) (acc : Str),
      ((streamLoop .chat events first acc).1.all isContentChatChunk) = true := by
  intro events
  induction events with
  | nil => intro first acc; rfl
  | cons m rest ih =>
    intro first acc
    simp only [streamLoop, List.all_cons, ih, Bool.and_true]
    rfl

/-- C3: a chat-dialect stream that ends normally after any number of events
emits exactly the per-event content chunks, then exactly one terminal chunk
with empty delta, finish reason "stop" and the final usage, then exactly one
`[DONE]` sentinel; the content prefix has one chunk per event and none of its
chunks carries a finish reason or usage. -/
theorem claim_C3_terminal_chunk_and_sentinel :
    ∀ (jloads : Str → Option JVal) (ct : Str → Nat)
      (messages : List ProtocolMessage) (events : List BotMessage),
      stream_response_with_replace jloads ct messages .chat events none
        = (streamLoop .chat events true []).1
          ++ [.data (.chatChunk none none (some (pstr "stop"))
                (some ⟨(count_message_tokens ct messages).prompt_tokens,
                       ct (streamLoop .chat events true []).2,
                       (count_message_tokens ct messages).prompt_tokens
                         + ct (streamLoop .chat events true []).2⟩)),
              .done]
      ∧ (streamLoop .chat events true []).1.length = events.length
      ∧ ((streamLoop .chat events true []).1.all isContentChatChunk) = true := by
  intro jloads ct messages events
  refine ⟨?_, streamLoop_length _ _ _ _, streamLoop_chat_content _ _ _⟩
  simp [stream_response_with_replace, create_final_chunk]

/-- Framing of the content-conversion loop: the accumulators only collect,
so a run from arbitrary accumulators is a run from empty accumulators with
the initial values prepended. -/
theorem convertLoop_frame :
    ∀ (upload : Str → Option Attachment) (content : List ContentPart)
      (tp : List Str) (at' : List Attachment),
      convertLoop upload content tp at'
        = (tp ++ textsOf upload content, at' ++ attsOf upload content) := by
  intro upload content
  induction content with
  | nil => intro tp at'; simp [convertLoop, textsOf, attsOf]
  | cons comp rest ih =>
    intro tp at'
    cases comp with
    | textPart t =>
      simp only [textsOf, attsOf, convertLoop, List.nil_append]
      simp only [ih]
      simp [List.append_assoc]
    | imageUrlPart url =>
      by_cases hurl : url = []
      · simp only [textsOf, attsOf, convertLoop, hurl, if_pos rfl]
        simp only [ih]
        simp
      · cases hu : upload url with
        | some a =>
          simp only [textsOf, attsOf, convertLoop, hurl, if_false, hu,
            List.nil_append]
          simp only [ih]
          simp [List.append_assoc]
        | none =>
          simp only [textsOf, attsOf, convertLoop, hurl, if_false, hu,
            List.nil_append]
          simp only [ih]
          simp [List.append_assoc]
    | imagePart image_url =>
      by_cases hurl : image_url = []
      · simp only [textsOf, attsOf, convertLoop, hurl, if_pos rfl]
        simp only [ih]
        simp
      · cases hu : upload image_url with
        | some a =>
          simp only [textsOf, attsOf, convertLoop, hurl, if_false, hu,
            List.nil_append]
          simp only [ih]
          simp [List.append_assoc]
        | none =>
          simp only [textsOf, attsOf, convertLoop, hurl, if_false, hu,
            List.nil_append]
          simp only [ih]
          simp [List.append_assoc]
    | otherPart =>
      simp only [textsOf, attsOf, convertLoop]
      simp only [ih]
      simp

/-- The content-conversion loop processes a concatenation of part lists by
processing the first list and continuing from its accumulators. -/
theorem convertLoop_append :
    ∀ (upload : Str → Option Attachment) (xs ys : List ContentPart)
      (tp : List Str) (at' : List Attachment),
      convertLoop upload (xs ++ ys) tp at'
        = convertLoop upload ys (convertLoop upload xs tp at').1
            (convertLoop upload xs tp at').2 := by
  intro upload xs
  induction xs with
  | nil => intro ys tp at'; rfl
  | cons comp rest ih =>
    intro ys tp at'
    cases comp with
    | textPart t =>
      simp only [List.cons_append, convertLoop]
      exact ih _ _ _
    | imageUrlPart url =>
      by_cases hurl : url = []
      · simp only [List.cons_append, convertLoop, hurl, if_pos rfl]
        exact ih _ _ _
      · cases hu : upload url <;>
          simp only [List.cons_append, convertLoop, hurl, if_false, hu] <;>
          exact ih _ _ _
    | imagePart image_url =>
      by_cases hurl : image_url = []
      · simp only [List.cons_append, convertLoop, hurl, if_pos rfl]
        exact ih _ _ _
      · cases hu : upload image_url <;>
          simp only [List.cons_append, convertLoop, hurl, if_false, hu] <;>
          exact ih _ _ _
    | otherPart =>
      simp only [List.cons_append, convertLoop]
      exact ih _ _ _

/-- C4: an `image_url` content part whose upload fails never aborts the
conversion of the containing message: the part is replaced by the literal
placeholder `[Image (upload failed): <url>]` in the joined text, no
attachment is produced for it, and the parts before and after it are
converted exactly as they would be on their own. -/
theorem claim_C4_upload_failure_placeholder :
    ∀ (upload : Str → Option Attachment) (p1 p2 : List ContentPart) (u : Str),
      upload u = none → u ≠ [] →
      (convertLoop upload (p1 ++ .imageUrlPart u :: p2) [] []).1
        = (convertLoop upload p1 [] []).1
          ++ [pstr "[Image (upload failed): " ++ u ++ pstr "]"]
          ++ (convertLoop upload p2 [] []).1
      ∧ (convertLoop upload (p1 ++ .imageUrlPart u :: p2) [] []).2
        = (convertLoop upload p1 [] []).2 ++ (convertLoop upload p2 [] []).2
      ∧ convert_openai_content_to_poe upload (p1 ++ .imageUrlPart u :: p2)
        = (joinWith (pstr " ")
            ((convertLoop upload p1 [] []).1
              ++ [pstr "[Image (upload failed): " ++ u ++ pstr "]"]
              ++ (convertLoop upload p2 [] []).1),
           (convertLoop upload p1 [] []).2 ++ (convertLoop upload p2 [] []).2) := by
  intro upload p1 p2 u hu hne
  have key : convertLoop upload (p1 ++ .imageUrlPart u :: p2) [] []
      = ((convertLoop upload p1 [] []).1
           ++ [pstr "[Image (upload failed): " ++ u ++ pstr "]"]
           ++ (convertLoop upload p2 [] []).1,
         (convertLoop upload p1 [] []).2 ++ (convertLoop upload p2 [] []).2) := by
    rw [convertLoop_append]
    simp only [convertLoop, hne, if_false, hu]
    rw [convertLoop_frame]
    simp [textsOf, attsOf, List.append_assoc]
  exact ⟨by rw [key], by rw [key],
    by simp [convert_openai_content_to_poe, key]⟩

/-- Witness for C4: a three-part message whose middle image part fails to
upload converts to the two text parts with the placeholder between them and
no attachments. -/
theorem claim_C4_upload_failure_placeholder_witness :
    convert_openai_content_to_poe (fun _ => none)
        [.textPart (pstr "Hello"), .imageUrlPart (pstr "data:x"),
         .textPart (pstr "World")]
      = (pstr "Hello [Image (upload failed): data:x] World", []) :=
  ((claim_C4_upload_failure_placeholder (fun _ => none)
      [.textPart (pstr "Hello")] [.textPart (pstr "World")]
      (pstr "data:x") rfl (by decide)).2.2).trans (by decide)

/-- Counterexample to C5: on the example fault whose string form is the JSON
object with text "no access" and error_id "abc123", the error normalizer
does not return upstream_id "abc123" — the identifier scan runs over the
resulting message "no access", which contains no `error_id:` token, so the
returned error id is `none`. -/
theorem claim_C5_upstream_id_counterexample :
    (parse_poe_error jlC5 errC5).2.2.2 ≠ some (pstr "abc123") := by
  decide

/-- C5 as amended: the example fault normalizes to message "no access" and
kind `poe_api_error` with the parsed object as raw payload, but the upstream
id is `none`, because the identifier is extracted by scanning the resulting
message (not the raw payload) for an `error_id:` token and "no access"
contains none. -/
theorem claim_C5_error_json_normalization :
    parse_poe_error jlC5 errC5
      = (.str (pstr "no access"),
         some (.obj [(pstr "text", .str (pstr "no access")),
                     (pstr "error_id", .str (pstr "abc123"))]),
         pstr "poe_api_error", none) := by
  rfl

/-- Counterexample to C7: on a fault whose string form is a JSON object with
the non-string text field 5, the `TypeError` raised by the identifier scan is
swallowed, but the returned message is the parsed field (the number 5), not
the original stringified fault. -/
theorem claim_C7_verbatim_message_counterexample :
    parse_poe_error jlC7 errC7
      = (.int 5, some (.obj [(pstr "text", .int 5)]), pstr "poe_api_error", none)
    ∧ JVal.int 5 ≠ .str errC7.s := by
  exact ⟨rfl, fun h => JVal.noConfusion h⟩

/-- C7 as amended: the error normalizer returns on every input (it is a total
function of the model by construction, every swallowed exception path
included); an exception during JSON extraction leaves the original
stringified fault verbatim as the message, but an exception swallowed later
(during the identifier scan, possible when the extracted `text` field is not
a string) leaves the already-extracted field as the message instead of the
original string. -/
theorem claim_C7_never_raises :
    (∀ (jloads : Str → Option JVal) (e : PyError),
       strStarts e.s (pstr "\x7b") = true → strEnds e.s (pstr "\x7d") = true →
       jloads e.s = none →
       parse_poe_error jloads e = (.str e.s, none, pstr "server_error", none)) ∧
    (∀ (jloads : Str → Option JVal) (e : PyError) (fields : List (Str × JVal)),
       strStarts e.s (pstr "\x7b") = true → strEnds e.s (pstr "\x7d") = true →
       jloads e.s = some (.obj fields) →
       pyIn (pstr "error_id:") (jGet fields (pstr "text") (.str e.s))
         = .error () →
       parse_poe_error jloads e
         = (jGet fields (pstr "text") (.str e.s), some (.obj fields),
            pstr "poe_api_error", none)) := by
  constructor
  · intro jloads e h1 h2 h3
    simp [parse_poe_error, h1, h2, h3]
  · intro jloads e fields h1 h2 h3 h4
    simp [parse_poe_error, parseTail, h1, h2, h3, h4]

/-- Witness for C7: a decode failure on a brace-delimited string keeps the
original message with kind `server_error`; the non-string text field 5 is
returned as the message with the scan's `TypeError` swallowed. -/
theorem claim_C7_never_raises_witness :
    parse_poe_error (fun _ => none) ⟨pstr "\x7b oops \x7d", false⟩
      = (.str (pstr "\x7b oops \x7d"), none, pstr "server_error", none)
    ∧ parse_poe_error jlC7 errC7
      = (.int 5, some (.obj [(pstr "text", .int 5)]), pstr "poe_api_error",
         none) :=
  ⟨claim_C7_never_raises.1 (fun _ => none) ⟨pstr "\x7b oops \x7d", false⟩
     (by decide) (by decide) rfl,
   claim_C7_never_raises.2 jlC7 errC7 [(pstr "text", .int 5)]
     (by decide) (by decide) rfl rfl⟩

/-- Counterexample to C6: a `ValueError` mentioning "Model" is answered with
HTTP status 404 while its kind is `invalid_request_error`, which the claimed
kind-to-status mapping sends to 400 — so the status is not determined by the
kind. -/
theorem claim_C6_status_mapping_counterexample :
    chat_completions_error (fun _ => none)
        (.valueErrorExn ⟨pstr "Model foo is unavailable", true⟩)
      = .errorResponse ⟨404, pstr "invalid_request_error",
          .str (pstr "Model foo is unavailable"), none, none⟩
    ∧ spec_status_of_kind (pstr "invalid_request_error") = 400
    ∧ (404 : Nat) ≠ 400 := by
  refine ⟨rfl, by decide, by decide⟩

/-- C6 as amended: on the chat-completions error path the HTTP status is
determined by the exception's class, not the canonical kind — an
`HTTPException` passes through with its own status; a `PoeAPIError` keeps its
carried status (500 unless set) with kind `poe_api_error`; a `ValueError`
mentioning "Model" yields 404 and any other `ValueError` 400, both with kind
`invalid_request_error`; every other fault yields 500 whatever kind the
normalizer assigned.  Separately, `create_error_response` derives a default
kind from the status by the inverse table 400→invalid_request_error,
401→authentication_error, 403→permission_error, 404→not_found_error,
429→rate_limit_error, otherwise server_error. -/
theorem claim_C6_status_dispatch :
    (∀ (jloads : Str → Option JVal) (s : Nat),
       chat_completions_error jloads (.httpExc s) = .passthrough s) ∧
    (∀ (jloads : Str → Option JVal) (m : Str) (d : JVal) (s : Nat)
       (i : Option Str),
       chat_completions_error jloads (.poeApi m (some d) s i)
         = .errorResponse ⟨s, pstr "poe_api_error", .str m, i, some d⟩) ∧
    (∀ (jloads : Str → Option JVal) (m : Str) (s : Nat) (i : Option Str),
       chat_completions_error jloads (.poeApi m none s i)
         = .errorResponse ⟨s, pstr "poe_api_error", .str m, none, none⟩) ∧
    (∀ (jloads : Str → Option JVal) (v : PyError),
       chat_completions_error jloads (.valueErrorExn v)
         = .errorResponse ⟨if strHas v.s (pstr "Model") then 404 else 400,
             pstr "invalid_request_error", .str v.s, none, none⟩) ∧
    (∀ (jloads : Str → Option JVal) (v : PyError),
       handlerStatus (chat_completions_error jloads (.otherExn v)) = 500) ∧
    (∀ (m : Str) (s : Nat),
       (create_error_response m [] s).etype = error_types_table s) ∧
    error_types_table 400 = pstr "invalid_request_error" ∧
    error_types_table 401 = pstr "authentication_error" ∧
    error_types_table 403 = pstr "permission_error" ∧
    error_types_table 404 = pstr "not_found_error" ∧
    error_types_table 429 = pstr "rate_limit_error" ∧
    (∀ s : Nat, s ≠ 400 → s ≠ 401 → s ≠ 403 → s ≠ 404 → s ≠ 429 →
       error_types_table s = pstr "server_error") := by
  refine ⟨fun _ _ => rfl, fun _ _ _ _ _ => rfl, fun _ _ _ _ => rfl,
    ?_, ?_, fun m s => rfl, rfl, rfl, rfl, rfl, rfl, ?_⟩
  · intro jloads v
    cases h : strHas v.s (pstr "Model") <;>
      simp [chat_completions_error, h]
  · intro jloads v
    cases hm : (parse_poe_error jloads v).2.1 <;>
      simp [chat_completions_error, handlerStatus, hm]
  · intro s h1 h2 h3 h4 h5
    simp only [error_types_table, h1, h2, h3, h4, h5, if_false]
    split <;> rfl

/-- Witness for C6: the table's fall-through case at status 418 yields
`server_error`. -/
theorem claim_C6_status_dispatch_witness :
    error_types_table 418 = pstr "server_error" :=
  claim_C6_status_dispatch.2.2.2.2.2.2.2.2.2.2.2 418
    (by decide) (by decide) (by decide) (by decide) (by decide)

/-- The image-generation loop adds exactly one `data` entry and one success
count per successful attempt. -/
theorem imageGenLoop_spec :
    ∀ (attempts : List Attempt) (data : List Str) (k : Nat),
      (imageGenLoop attempts data k).1.length = data.length + countOk attempts ∧
      (imageGenLoop attempts data k).2 = k + countOk attempts := by
  intro attempts
  induction attempts with
  | nil => intro data k; simp [imageGenLoop, countOk]
  | cons a rest ih =>
    intro data k
    cases a <;>
      (simp [imageGenLoop, countOk, List.countP_cons, ih data, ih (data ++ [_])]
       try omega)

/-- C9: over any number of sequential attempts, the image-generation endpoint
returns HTTP 200 with exactly one `data` entry per successful attempt when at
least one attempt succeeded, and the HTTP 500 error body when none did; in
particular five attempts with two failures yield HTTP 200 with exactly three
entries. -/
theorem claim_C9_partial_success :
    ∀ (n : Option Int) (attemptAt : Nat → Attempt),
      (1 ≤ countOk ((List.range (num_images_generations n).toNat).map attemptAt) →
        image_generations n attemptAt
          = .ok (imageGenLoop
              ((List.range (num_images_generations n).toNat).map attemptAt)
              [] 0).1
        ∧ (imageGenLoop
              ((List.range (num_images_generations n).toNat).map attemptAt)
              [] 0).1.length
          = countOk ((List.range (num_images_generations n).toNat).map attemptAt)) ∧
      (countOk ((List.range (num_images_generations n).toNat).map attemptAt) = 0 →
        image_generations n attemptAt = .err500) ∧
      image_generations (some 5) attemptC9 = .ok [pstr "u", pstr "u", pstr "u"] := by
  intro n attemptAt
  have hspec := imageGenLoop_spec
    ((List.range (num_images_generations n).toNat).map attemptAt) [] 0
  refine ⟨?_, ?_, by decide⟩
  · intro hk
    constructor
    · simp only [image_generations]
      rw [if_pos]
      omega
    · rw [hspec.1]
      simp
  · intro hk
    simp only [image_generations]
    rw [if_neg]
    omega

/-- Witness for C9: the concrete five-attempt run with failures at positions
1 and 3 returns HTTP 200 with its three collected entries, and the all-fail
single-attempt run returns the 500 error. -/
theorem claim_C9_partial_success_witness :
    image_generations (some 5) attemptC9
      = .ok (imageGenLoop
          ((List.range (num_images_generations (some 5)).toNat).map attemptC9)
          [] 0).1
    ∧ image_generations (some 1) (fun _ => .noFile) = .err500 :=
  ⟨((claim_C9_partial_success (some 5) attemptC9).1 (by decide)).1,
   (claim_C9_partial_success (some 1) (fun _ => .noFile)).2.1 (by decide)⟩

/-- C10: both image endpoints clamp the requested count to
`max(1, min(n, 10))` sequential attempts — one attempt when `n` is absent,
zero or negative, ten when `n` exceeds ten, and exactly `n` otherwise — and
the attempt list performed by the generation endpoint has exactly that
length. -/
theorem claim_C10_attempt_clamp :
    num_images_generations none = 1 ∧ num_images_edits none = 1 ∧
    (∀ v : Int, num_images_generations (some v) = max 1 (min v 10)) ∧
    (∀ v : Int, num_images_edits (some v) = max 1 (min v 10)) ∧
    (∀ v : Int, v ≤ 0 → num_images_generations (some v) = 1) ∧
    (∀ v : Int, 10 < v → num_images_generations (some v) = 10) ∧
    (∀ v : Int, 1 ≤ v → v ≤ 10 → num_images_generations (some v) = v) ∧
    (∀ (n : Option Int) (f : Nat → Attempt),
      ((List.range (num_images_generations n).toNat).map f).length
        = (num_images_generations n).toNat) := by
  have hgen : ∀ v : Int, num_images_generations (some v) = max 1 (min v 10) := by
    intro v
    by_cases hv : v = 0
    · subst hv; decide
    · simp [num_images_generations, hv]
  have hed : ∀ v : Int, num_images_edits (some v) = max 1 (min v 10) := by
    intro v
    by_cases hv : v = 0
    · subst hv; decide
    · simp [num_images_edits, hv]
  refine ⟨by decide, by decide, hgen, hed, ?_, ?_, ?_, ?_⟩
  · intro v hv; rw [hgen]; omega
  · intro v hv; rw [hgen]; omega
  · intro v hv1 hv2; rw [hgen]; omega
  · intro n f; simp

/-- Witness for C10: a negative count performs one attempt, seventeen are
clamped to ten, and five stay five. -/
theorem claim_C10_attempt_clamp_witness :
    num_images_generations (some (-3)) = 1
    ∧ num_images_generations (some 17) = 10
    ∧ num_images_generations (some 5) = 5 :=
  ⟨claim_C10_attempt_clamp.2.2.2.2.1 (-3) (by decide),
   claim_C10_attempt_clamp.2.2.2.2.2.1 17 (by decide),
   claim_C10_attempt_clamp.2.2.2.2.2.2.1 5 (by decide) (by decide)⟩

end PoeBridge
